import Mathlib

set_option maxHeartbeats 1000000

/-!
Verification of the iceberg-rest-catalog service (`src/main.py`), a FastAPI
wrapper around a SQL-backed table catalog.  The wrapper code is embedded from
the source; the catalog operations it calls live in the external catalog
library and are modelled from the specification (each such definition carries a
doc comment starting `Modelled from the spec:`).
-/

/-- The unit-separator character `0x1F` used by the REST namespace path
encoding (`NAMESPACE_SEPARATOR` in the source). -/
def usChar : Char := Char.ofNat 31

/-- Splitting a character list on a separator character, with Python
`str.split(sep)` semantics: the result is always non-empty and splitting the
empty string yields one empty part. -/
def splitOnChar (sep : Char) : List Char → List (List Char)
  | [] => [[]]
  | c :: cs =>
    match splitOnChar sep cs with
    | [] => [[]]
    | p :: ps => if c = sep then [] :: p :: ps else (c :: p) :: ps

/-- Joining character lists with a separator character, with Python
`sep.join(parts)` semantics. -/
def joinWithChar (sep : Char) : List (List Char) → List Char
  | [] => []
  | [p] => p
  | p :: q :: ps => p ++ sep :: joinWithChar sep (q :: ps)

/-- Python `s.split(sep)` for a single-character separator, as used by every
path-parameter endpoint (`namespace.split(NAMESPACE_SEPARATOR)`). -/
def pySplit (s : String) (sep : Char) : List String :=
  (splitOnChar sep s.toList).map String.mk

/-- Python `sep.join(parts)` for a single-character separator. -/
def pyJoin (sep : Char) (parts : List String) : String :=
  String.mk (joinWithChar sep (parts.map String.toList))

/-- Parse a namespace path string into its parts, splitting on the `0x1F`
unit separator (the encoding every namespace path parameter uses). -/
def parseNs (s : String) : List String := pySplit s usChar

/-- Format namespace parts into a namespace path string, joining with the
`0x1F` unit separator. -/
def nsFormat (parts : List String) : String := pyJoin usChar parts

/-- The namespace formatting used by the `rename_table` endpoint in the
source: `".".join(rename_table_request.source.namespace.root)` — a dot join,
not the `0x1F` separator. -/
def dotJoin (parts : List String) : String := pyJoin '.' parts

/- ===========================  Data model  =========================== -/

/-- A property map (Python `dict`), modelled as an association list. -/
abbrev Props := List (String × String)

/-- A metadata location: an opaque durable address.  Modelled as a numeric
id handed out by a fresh-location counter in the catalog state. -/
abbrev Loc := Nat

/-- A table identifier at the catalog level: namespace parts plus a table
name (the source passes flat tuples whose last element is the name). -/
abbrev Ident := List String × String

/-- Modelled from the spec: Table Metadata — an immutable snapshot of a
table's definition: schema ids, a designated current schema id, snapshot ids,
a nullable current snapshot id, free-form properties, a sequence number and
a metadata version used for optimistic concurrency. -/
structure TableMetadata where
  schemaIds : List Nat
  currentSchemaId : Option Nat
  snapshotIds : List Nat
  currentSnapshotId : Option Nat
  properties : Props
  lastSequenceNumber : Nat
  version : Nat
deriving Repr, DecidableEq

/-- Modelled from the spec: the metadata object a table starts from before
any update has been applied (the base of a staged-creation commit). -/
def emptyMetadata : TableMetadata :=
  { schemaIds := []
    currentSchemaId := none
    snapshotIds := []
    currentSnapshotId := none
    properties := []
    lastSequenceNumber := 0
    version := 0 }

/-- Modelled from the spec: a Commit Requirement — an assertion about the
table's current state that must hold immediately before updates are applied
("table does not yet exist", "current schema/snapshot equals X"). -/
inductive TableRequirement where
  | assertCreate : TableRequirement
  | assertCurrentSchemaId : Option Nat → TableRequirement
  | assertCurrentSnapshotId : Option Nat → TableRequirement
deriving Repr, DecidableEq, BEq

/-- Modelled from the spec: a Commit Update — one mutation of table metadata,
a closed tagged set of operation kinds. -/
inductive TableUpdate where
  | addSchema : Nat → TableUpdate
  | setCurrentSchema : Nat → TableUpdate
  | addSnapshot : Nat → TableUpdate
  | setCurrentSnapshot : Nat → TableUpdate
  | setProperties : Props → TableUpdate
  | removeProperties : List String → TableUpdate
deriving Repr, DecidableEq

/-- Errors raised by the modelled catalog library (the exception classes the
wrapper catches).  `commitFailed (some r)` records which requirement failed,
`commitFailed none` a lost compare-and-swap race. -/
inductive CatalogError where
  | noSuchNamespace : CatalogError
  | noSuchTable : CatalogError
  | namespaceAlreadyExists : CatalogError
  | tableAlreadyExists : CatalogError
  | namespaceNotEmpty : CatalogError
  | commitFailed : Option TableRequirement → CatalogError
  | invalidUpdate : CatalogError
deriving Repr, DecidableEq

/-- An HTTP error produced by a `raise HTTPException(...)` in the wrapper;
`uncaught` models a catalog exception no `except` clause of the endpoint
handles (FastAPI would turn it into a 500). -/
inductive ApiErr where
  | notFoundNamespace : ApiErr
  | notFoundTable : ApiErr
  | conflictNamespaceExists : ApiErr
  | conflictTableExists : ApiErr
  | conflictNamespaceNotEmpty : ApiErr
  | conflictCommitFailed : Option TableRequirement → ApiErr
  | uncaught : CatalogError → ApiErr
deriving Repr, DecidableEq

/-- The HTTP status code each wrapper error is raised with. -/
def ApiErr.status : ApiErr → Nat
  | .notFoundNamespace => 404
  | .notFoundTable => 404
  | .conflictNamespaceExists => 409
  | .conflictTableExists => 409
  | .conflictNamespaceNotEmpty => 409
  | .conflictCommitFailed _ => 409
  | .uncaught _ => 500

/-- The catalog's durable state: namespace bindings (namespace parts to
properties), table bindings (identifier to current metadata location and the
metadata stored there) and a fresh-location counter. -/
structure State where
  namespaces : List (List String × Props)
  tables : List (Ident × (Loc × TableMetadata))
  nextLoc : Nat
deriving Repr, DecidableEq

/-- The state of a freshly (re)created backing store. -/
def State.empty : State := { namespaces := [], tables := [], nextLoc := 0 }

def lookupNs : List (List String × Props) → List String → Option Props
  | [], _ => none
  | (k, v) :: rest, n => if k = n then some v else lookupNs rest n

def lookupTbl : List (Ident × (Loc × TableMetadata)) → Ident → Option (Loc × TableMetadata)
  | [], _ => none
  | (k, v) :: rest, i => if k = i then some v else lookupTbl rest i

def removeTbl : List (Ident × (Loc × TableMetadata)) → Ident → List (Ident × (Loc × TableMetadata))
  | [], _ => []
  | (k, v) :: rest, i => if k = i then removeTbl rest i else (k, v) :: removeTbl rest i

/- =====================  Modelled catalog library  ===================== -/

/-- Modelled from the spec: `create(namespace, properties)` of the Namespace
Store — fails with `NamespaceAlreadyExists` if present, otherwise records the
namespace and its properties (no parent-existence requirement). -/
def Catalog.createNamespace (ns : List String) (props : Props) (s : State) :
    Except CatalogError State :=
  match lookupNs s.namespaces ns with
  | some _ => .error .namespaceAlreadyExists
  | none => .ok { s with namespaces := (ns, props) :: s.namespaces }

/-- Modelled from the spec: `list(parent)` of the Namespace Store — every
distinct namespace whose part-sequence length is exactly `len(parent)+1` and
whose prefix equals `parent`; fails with `NoSuchNamespace` when `parent` is
non-empty and not present. -/
def Catalog.listNamespaces (parent : List String) (s : State) :
    Except CatalogError (List (List String)) :=
  if parent ≠ [] ∧ lookupNs s.namespaces parent = none then
    .error .noSuchNamespace
  else
    .ok (((s.namespaces.map Prod.fst).filter
      (fun n => n.length = parent.length + 1 ∧ n.take parent.length = parent)).eraseDups)

/-- Modelled from the spec: `loadProperties(namespace)` of the Namespace
Store — fails with `NoSuchNamespace` if absent. -/
def Catalog.loadNamespaceProperties (ns : List String) (s : State) :
    Except CatalogError Props :=
  match lookupNs s.namespaces ns with
  | some props => .ok props
  | none => .error .noSuchNamespace

/-- Modelled from the spec: the table identifiers bound under a namespace
(the spec leaves ListTables otherwise unspecified). -/
def Catalog.listTables (ns : List String) (s : State) :
    Except CatalogError (List Ident) :=
  .ok ((s.tables.map Prod.fst).filter (fun i => i.1 = ns))

/-- The subset of the create-table request body the model needs: the table
name, the stage flag, the initial schema id and the table properties
(`models/request.py` is not under `src/`; field set modelled from the spec's
`CreateTable(namespace, spec, stageCreate)`). -/
structure CreateTableRequest where
  name : String
  stageCreate : Bool
  schemaId : Nat
  properties : Props
deriving Repr, DecidableEq

/-- Modelled from the spec: the fully formed initial Table Metadata object a
table creation produces from its request. -/
def initMetadata (req : CreateTableRequest) : TableMetadata :=
  { schemaIds := [req.schemaId]
    currentSchemaId := some req.schemaId
    snapshotIds := []
    currentSnapshotId := none
    properties := req.properties
    lastSequenceNumber := 0
    version := 0 }

/-- The result of a successful catalog table operation: the bound metadata
location, the metadata stored there, and the table properties. -/
structure CatalogTable where
  metadataLocation : Loc
  metadata : TableMetadata
  properties : Props
deriving Repr, DecidableEq

/-- Modelled from the spec: `CreateTable` — fails with `TableAlreadyExists`
if the identifier is occupied, otherwise writes the initial metadata to a
fresh location and binds the identifier to it. -/
def Catalog.createTable (ident : Ident) (req : CreateTableRequest) (s : State) :
    Except CatalogError (CatalogTable × State) :=
  match lookupTbl s.tables ident with
  | some _ => .error .tableAlreadyExists
  | none =>
    let m := initMetadata req
    let loc := s.nextLoc
    .ok (⟨loc, m, m.properties⟩,
      { s with tables := (ident, (loc, m)) :: s.tables, nextLoc := s.nextLoc + 1 })

/-- Modelled from the spec: `LoadTable(identifier)` — fails with
`NoSuchTable` if the identifier has no current binding. -/
def Catalog.loadTable (ident : Ident) (s : State) :
    Except CatalogError CatalogTable :=
  match lookupTbl s.tables ident with
  | some (loc, m) => .ok ⟨loc, m, m.properties⟩
  | none => .error .noSuchTable

/-- Modelled from the spec: `DropTable(identifier)` — fails with
`NoSuchTable` if absent, otherwise removes the binding. -/
def Catalog.dropTable (ident : Ident) (s : State) : Except CatalogError State :=
  match lookupTbl s.tables ident with
  | some _ => .ok { s with tables := removeTbl s.tables ident }
  | none => .error .noSuchTable

/-- Modelled from the spec: `rename(source, destination)` — fails with
`NoSuchNamespace` if the destination namespace is absent, `NoSuchTable` if the
source is absent, `TableAlreadyExists` if the destination is occupied;
otherwise moves the name-to-location binding without rewriting metadata. -/
def Catalog.renameTable (src dst : Ident) (s : State) : Except CatalogError State :=
  if lookupNs s.namespaces dst.1 = none then .error .noSuchNamespace
  else
    match lookupTbl s.tables src with
    | none => .error .noSuchTable
    | some entry =>
      if (lookupTbl s.tables dst).isSome then .error .tableAlreadyExists
      else .ok { s with tables := (dst, entry) :: removeTbl s.tables src }

/-- Modelled from the spec: whether one Commit Requirement holds against the
loaded metadata (`present` is whether the table currently has a binding). -/
def checkReq (present : Bool) (m : TableMetadata) : TableRequirement → Bool
  | .assertCreate => !present
  | .assertCurrentSchemaId i => m.currentSchemaId = i
  | .assertCurrentSnapshotId i => m.currentSnapshotId = i

/-- Modelled from the spec: requirements are validated in order and the first
failing one is reported. -/
def firstFailedReq (present : Bool) (m : TableMetadata) :
    List TableRequirement → Option TableRequirement
  | [] => none
  | r :: rs => if checkReq present m r then firstFailedReq present m rs else some r

/-- Modelled from the spec: `applyUpdate(metadata, update)`, defined per
update kind, each validated independently (setting a current schema or
snapshot that is not in the metadata's history fails fast). -/
def applyUpdate (m : TableMetadata) : TableUpdate → Except CatalogError TableMetadata
  | .addSchema i => .ok { m with schemaIds := m.schemaIds ++ [i] }
  | .setCurrentSchema i =>
    if m.schemaIds.contains i then .ok { m with currentSchemaId := some i }
    else .error .invalidUpdate
  | .addSnapshot i =>
    .ok { m with snapshotIds := m.snapshotIds ++ [i],
                 lastSequenceNumber := m.lastSequenceNumber + 1 }
  | .setCurrentSnapshot i =>
    if m.snapshotIds.contains i then .ok { m with currentSnapshotId := some i }
    else .error .invalidUpdate
  | .setProperties ps => .ok { m with properties := m.properties ++ ps }
  | .removeProperties ks =>
    .ok { m with properties := m.properties.filter (fun kv => ¬ ks.contains kv.1) }

/-- Modelled from the spec: updates applied left to right, each seeing the
effects of the ones before it. -/
def applyUpdates (m : TableMetadata) : List TableUpdate → Except CatalogError TableMetadata
  | [] => .ok m
  | u :: us =>
    match applyUpdate m u with
    | .ok m' => applyUpdates m' us
    | .error e => .error e

/-- Modelled from the spec: the Commit Protocol for one table.  Load the
current binding (absence is `NoSuchTable` unless an explicit "assert table
does not exist" requirement makes this a creation commit); validate every
requirement in order, the first failure aborting with `CommitFailed` carrying
that requirement; apply every update in order; publish the candidate
metadata at a fresh location with the version counter incremented by exactly
one.  Validation and publish act on the same state, so the compare-and-swap
of the publish step cannot lose in this sequential model. -/
def Catalog.commitTable (ident : Ident) (reqs : List TableRequirement)
    (upds : List TableUpdate) (s : State) :
    Except CatalogError (Loc × TableMetadata × State) :=
  match lookupTbl s.tables ident with
  | some (_, m) =>
    match firstFailedReq true m reqs with
    | some r => .error (.commitFailed (some r))
    | none =>
      match applyUpdates m upds with
      | .error e => .error e
      | .ok m' =>
        let m2 := { m' with version := m.version + 1 }
        let loc := s.nextLoc
        .ok (loc, m2,
          { s with tables := (ident, (loc, m2)) :: removeTbl s.tables ident,
                   nextLoc := s.nextLoc + 1 })
  | none =>
    if reqs.contains .assertCreate then
      match firstFailedReq false emptyMetadata reqs with
      | some r => .error (.commitFailed (some r))
      | none =>
        match applyUpdates emptyMetadata upds with
        | .error e => .error e
        | .ok m' =>
          let m2 := { m' with version := 1 }
          let loc := s.nextLoc
          .ok (loc, m2,
            { s with tables := (ident, (loc, m2)) :: s.tables,
                     nextLoc := s.nextLoc + 1 })
    else .error .noSuchTable

/- =====================  Wrapper request bodies  ===================== -/

/-- A table identifier as it appears in request bodies
(`TableIdentifier(namespace=..., name=...)`). -/
structure TableIdentifier where
  namespace' : List String
  name : String
deriving Repr, DecidableEq

/-- The commit-table request body: an optional identifier plus ordered
requirement and update lists (`models/request.py` is not under `src/`; field
set modelled from the spec's Commit Request). -/
structure CommitTableRequest where
  identifier : Option TableIdentifier
  requirements : List TableRequirement
  updates : List TableUpdate
deriving Repr, DecidableEq

/-- The commit-transaction request body: an ordered list of per-table commit
requests (`models/request.py` is not under `src/`; modelled from the spec's
`CommitTransaction(list of per-table commit requests)`). -/
structure CommitTransactionRequest where
  tableChanges : List CommitTableRequest
deriving Repr, DecidableEq

/-- The create-namespace request body. -/
structure CreateNamespaceRequest where
  namespace' : List String
  properties : Props
deriving Repr, DecidableEq

/-- The rename-table request body: source and destination identifiers. -/
structure RenameTableRequest where
  source : TableIdentifier
  destination : TableIdentifier
deriving Repr, DecidableEq

/-- The response of a successful create-namespace call. -/
structure CreateNamespaceResponse where
  namespace' : List String
  properties : Props
deriving Repr, DecidableEq

/-- The response of a successful load-namespace-metadata call. -/
structure GetNamespaceResponse where
  namespace' : List String
  properties : Props
deriving Repr, DecidableEq

/-- The `LoadTableResult` model of the source: nullable metadata location
("May be null if the table is staged as part of a transaction"), the
metadata, and the config map. -/
structure LoadTableResult where
  metadataLocation : Option Loc
  metadata : TableMetadata
  config : Props
deriving Repr, DecidableEq

/-- The response of a successful commit-table call. -/
structure CommitTableResponse where
  metadataLocation : Loc
  metadata : TableMetadata
deriving Repr, DecidableEq

/- =====================  Endpoints (src/main.py)  ===================== -/

/-- Modelled from the spec: `catalog.destroy_tables()` followed by
`catalog.create_tables()` drops and recreates the backing store, leaving an
empty catalog regardless of the prior state. -/
def destroyAndCreateTables (_prior : State) : State := State.empty

/-- `GET /reset` — destroys and recreates the backing tables and returns ok. -/
def reset (s : State) : Except ApiErr Unit × State :=
  (.ok (), destroyAndCreateTables s)

/-- The catalog state right after process start: the module-level code runs
the same destroy-and-create wipe on whatever database state pre-existed. -/
def startupState (prior : State) : State := destroyAndCreateTables prior

/-- `POST /v1/namespaces` — create a namespace; `NamespaceAlreadyExistsError`
becomes HTTP 409; the response echoes the request's namespace and
properties. -/
def create_namespace (req : CreateNamespaceRequest) (s : State) :
    Except ApiErr CreateNamespaceResponse × State :=
  match Catalog.createNamespace req.namespace' req.properties s with
  | .ok s' => (.ok ⟨req.namespace', req.properties⟩, s')
  | .error .namespaceAlreadyExists => (.error .conflictNamespaceExists, s)
  | .error e => (.error (.uncaught e), s)

/-- `GET /v1/namespaces?parent=...` — a missing parent becomes the empty
tuple, a provided parent is split on the `0x1F` separator (Python splits the
empty string into one empty part); `NoSuchNamespaceError` becomes 404. -/
def list_namespaces (parent : Option String) (s : State) :
    Except ApiErr (List (List String)) × State :=
  let parentTuple := match parent with
    | none => []
    | some p => pySplit p usChar
  match Catalog.listNamespaces parentTuple s with
  | .ok nss => (.ok nss, s)
  | .error .noSuchNamespace => (.error .notFoundNamespace, s)
  | .error e => (.error (.uncaught e), s)

/-- `GET /v1/namespaces/{namespace}` — split the path on `0x1F`, load the
stored properties; `NoSuchNamespaceError` becomes 404. -/
def load_namespace_metadata (nsPath : String) (s : State) :
    Except ApiErr GetNamespaceResponse × State :=
  let nsTuple := pySplit nsPath usChar
  match Catalog.loadNamespaceProperties nsTuple s with
  | .ok props => (.ok ⟨nsTuple, props⟩, s)
  | .error .noSuchNamespace => (.error .notFoundNamespace, s)
  | .error e => (.error (.uncaught e), s)

/-- `HEAD /v1/namespaces/{namespace}` — loads the namespace properties and
discards them; `NoSuchNamespaceError` becomes 404, no body on success. -/
def namespace_exists (nsPath : String) (s : State) :
    Except ApiErr Unit × State :=
  let nsTuple := pySplit nsPath usChar
  match Catalog.loadNamespaceProperties nsTuple s with
  | .ok _ => (.ok (), s)
  | .error .noSuchNamespace => (.error .notFoundNamespace, s)
  | .error e => (.error (.uncaught e), s)

/-- `GET /v1/namespaces/{namespace}/tables` — list the table identifiers
under the namespace; `NoSuchNamespaceError` becomes 404. -/
def list_tables (nsPath : String) (s : State) :
    Except ApiErr (List Ident) × State :=
  let nsTuple := pySplit nsPath usChar
  match Catalog.listTables nsTuple s with
  | .ok ids => (.ok ids, s)
  | .error .noSuchNamespace => (.error .notFoundNamespace, s)
  | .error e => (.error (.uncaught e), s)

/-- `_stage_create_table` — the staged path of table creation in the source:
it fully creates the table through the catalog, then immediately drops it
(the source marks this `(TODO): temp fix, create/then remove table`), and
returns the created table's metadata location, metadata and properties.
Only `TableAlreadyExistsError` is caught (409). -/
def stage_create_table (ident : Ident) (req : CreateTableRequest) (s : State) :
    Except ApiErr LoadTableResult × State :=
  match Catalog.createTable ident req s with
  | .error .tableAlreadyExists => (.error .conflictTableExists, s)
  | .error e => (.error (.uncaught e), s)
  | .ok (tbl, s1) =>
    match Catalog.dropTable ident s1 with
    | .ok s2 => (.ok ⟨some tbl.metadataLocation, tbl.metadata, tbl.properties⟩, s2)
    | .error e => (.error (.uncaught e), s1)

/-- `_create_table` — the non-staged path: create the table and return its
location, metadata and properties; `TableAlreadyExistsError` becomes 409. -/
def create_table_impl (ident : Ident) (req : CreateTableRequest) (s : State) :
    Except ApiErr LoadTableResult × State :=
  match Catalog.createTable ident req s with
  | .error .tableAlreadyExists => (.error .conflictTableExists, s)
  | .error e => (.error (.uncaught e), s)
  | .ok (tbl, s1) =>
    (.ok ⟨some tbl.metadataLocation, tbl.metadata, tbl.properties⟩, s1)

/-- `POST /v1/namespaces/{namespace}/tables` — build the identifier from the
split path and the request's name, then dispatch on the stage flag. -/
def create_table (nsPath : String) (req : CreateTableRequest) (s : State) :
    Except ApiErr LoadTableResult × State :=
  let ident : Ident := (pySplit nsPath usChar, req.name)
  if req.stageCreate then stage_create_table ident req s
  else create_table_impl ident req s

/-- `GET /v1/namespaces/{namespace}/tables/{table}` — load the table;
`NoSuchTableError` becomes 404. -/
def load_table (nsPath : String) (table : String) (s : State) :
    Except ApiErr LoadTableResult × State :=
  let ident : Ident := (pySplit nsPath usChar, table)
  match Catalog.loadTable ident s with
  | .ok tbl => (.ok ⟨some tbl.metadataLocation, tbl.metadata, tbl.properties⟩, s)
  | .error .noSuchTable => (.error .notFoundTable, s)
  | .error e => (.error (.uncaught e), s)

/-- The commit call shared by `update_table` after identifier resolution:
`catalog._commit_table` with `NoSuchTableError` mapped to 404 and
`CommitFailedException` mapped to 409. -/
def commitCore (ident : Ident) (reqs : List TableRequirement)
    (upds : List TableUpdate) (s : State) :
    Except ApiErr CommitTableResponse × State :=
  match Catalog.commitTable ident reqs upds s with
  | .ok (loc, m, s') => (.ok ⟨loc, m⟩, s')
  | .error .noSuchTable => (.error .notFoundTable, s)
  | .error (.commitFailed r) => (.error (.conflictCommitFailed r), s)
  | .error e => (.error (.uncaught e), s)

/-- `POST /v1/namespaces/{namespace}/tables/{table}` — commit updates to a
table.  When the body identifier is null it is filled in from the path
parameters; otherwise the body identifier alone routes the commit. -/
def update_table (nsPath : String) (table : String) (req : CommitTableRequest)
    (s : State) : Except ApiErr CommitTableResponse × State :=
  let ident : Ident := match req.identifier with
    | some i => (i.namespace', i.name)
    | none => (pySplit nsPath usChar, table)
  commitCore ident req.requirements req.updates s

/-- `DELETE /v1/namespaces/{namespace}/tables/{table}` — drop the table;
`NoSuchTableError` becomes 404. -/
def drop_table (nsPath : String) (table : String) (s : State) :
    Except ApiErr Unit × State :=
  let ident : Ident := (pySplit nsPath usChar, table)
  match Catalog.dropTable ident s with
  | .ok s' => (.ok (), s')
  | .error .noSuchTable => (.error .notFoundTable, s)
  | .error e => (.error (.uncaught e), s)

/-- `HEAD /v1/namespaces/{namespace}/tables/{table}` — loads the table and
discards the result; `NoSuchTableError` becomes 404, no body on success. -/
def table_exists (nsPath : String) (table : String) (s : State) :
    Except ApiErr Unit × State :=
  let ident : Ident := (pySplit nsPath usChar, table)
  match Catalog.loadTable ident s with
  | .ok _ => (.ok (), s)
  | .error .noSuchTable => (.error .notFoundTable, s)
  | .error e => (.error (.uncaught e), s)

/-- `POST /v1/{prefix}/transactions/commit` — the source's function body is
the bare ellipsis `...`: the request is accepted, nothing is invoked on the
catalog, and `None` (HTTP 200) is returned. -/
def commit_transaction (_req : CommitTransactionRequest) (s : State) :
    Except ApiErr Unit × State :=
  (.ok (), s)

/-- `POST /v1/tables/rename` — the source joins each identifier's namespace
parts with `"."` and passes the flat pair `(joined_namespace, name)` to the
catalog, whose identifier convention reads all but the last element as the
namespace; so the catalog sees the single-part namespace `[joined]`.
`NoSuchNamespaceError` and `NoSuchTableError` become 404,
`TableAlreadyExistsError` becomes 409. -/
def rename_table (req : RenameTableRequest) (s : State) :
    Except ApiErr Unit × State :=
  let src : Ident := ([dotJoin req.source.namespace'], req.source.name)
  let dst : Ident := ([dotJoin req.destination.namespace'], req.destination.name)
  match Catalog.renameTable src dst s with
  | .ok s' => (.ok (), s')
  | .error .noSuchNamespace => (.error .notFoundNamespace, s)
  | .error .noSuchTable => (.error .notFoundTable, s)
  | .error .tableAlreadyExists => (.error .conflictTableExists, s)
  | .error e => (.error (.uncaught e), s)

/-- The behavior the claim describes for a rename call, written from the
claim's words for comparison with the endpoint: `NoSuchNamespace` when the
destination namespace is absent, `NoSuchTable` when the source table is
absent, `TableAlreadyExists` when the destination identifier is occupied
(all leaving the state untouched); on success the destination is bound to
the metadata previously bound at the source and the source binding is
removed. -/
def renameExpected (srcNs : List String) (srcName : String)
    (dstNs : List String) (dstName : String) (s : State) :
    Except ApiErr Unit × State :=
  if lookupNs s.namespaces dstNs = none then (.error .notFoundNamespace, s)
  else
    match lookupTbl s.tables (srcNs, srcName) with
    | none => (.error .notFoundTable, s)
    | some entry =>
      if (lookupTbl s.tables (dstNs, dstName)).isSome then
        (.error .conflictTableExists, s)
      else
        (.ok (), { s with
          tables := ((dstNs, dstName), entry) :: removeTbl s.tables (srcNs, srcName) })

/- =========================  Helper lemmas  ========================= -/

theorem splitOnChar_ne_nil (sep : Char) (l : List Char) : splitOnChar sep l ≠ [] := by
  cases l with
  | nil => simp [splitOnChar]
  | cons c cs =>
    simp only [splitOnChar]
    cases splitOnChar sep cs with
    | nil => simp
    | cons p ps =>
      by_cases h : c = sep <;> simp [h]

theorem splitOnChar_no_sep (sep : Char) (p : List Char) (hp : sep ∉ p) :
    splitOnChar sep p = [p] := by
  induction p with
  | nil => rfl
  | cons c cs ih =>
    have hc : c ≠ sep := fun h => hp (h ▸ List.mem_cons_self c cs)
    have hcs : sep ∉ cs := fun h => hp (List.mem_cons_of_mem c h)
    simp [splitOnChar, ih hcs, hc]

theorem splitOnChar_append_sep (sep : Char) (p l : List Char) (hp : sep ∉ p) :
    splitOnChar sep (p ++ sep :: l) = p :: splitOnChar sep l := by
  induction p with
  | nil =>
    simp only [List.nil_append, splitOnChar]
    cases h : splitOnChar sep l with
    | nil => exact absurd h (splitOnChar_ne_nil sep l)
    | cons q qs => simp
  | cons c cs ih =>
    have hc : c ≠ sep := fun h => hp (h ▸ List.mem_cons_self c cs)
    have hcs : sep ∉ cs := fun h => hp (List.mem_cons_of_mem c h)
    have harr : cs.append (sep :: l) = cs ++ sep :: l := rfl
    simp only [List.cons_append, splitOnChar, harr, ih hcs, hc, if_false]

theorem splitOnChar_joinWithChar (sep : Char) (parts : List (List Char))
    (hne : parts ≠ []) (hsep : ∀ p ∈ parts, sep ∉ p) :
    splitOnChar sep (joinWithChar sep parts) = parts := by
  induction parts with
  | nil => exact absurd rfl hne
  | cons p ps ih =>
    cases ps with
    | nil =>
      simp only [joinWithChar]
      exact splitOnChar_no_sep sep p (hsep p (List.mem_cons_self p []))
    | cons q qs =>
      have hp : sep ∉ p := hsep p (List.mem_cons_self p (q :: qs))
      have hrest : ∀ r ∈ q :: qs, sep ∉ r := fun r hr =>
        hsep r (List.mem_cons_of_mem p hr)
      simp only [joinWithChar, splitOnChar_append_sep sep p _ hp]
      rw [ih (by simp) hrest]

theorem pySplit_pyJoin (sep : Char) (parts : List String) (hne : parts ≠ [])
    (hsep : ∀ p ∈ parts, sep ∉ p.toList) :
    pySplit (pyJoin sep parts) sep = parts := by
  unfold pySplit pyJoin
  have h1 : (String.mk (joinWithChar sep (parts.map String.toList))).toList
      = joinWithChar sep (parts.map String.toList) := rfl
  rw [h1, splitOnChar_joinWithChar sep (parts.map String.toList)
    (by simpa using hne)
    (by intro p hp
        rcases List.mem_map.mp hp with ⟨q, hq, rfl⟩
        exact hsep q hq)]
  rw [List.map_map]
  have : (String.mk ∘ String.toList) = id := by
    funext s
    cases s
    rfl
  rw [this, List.map_id]

theorem pyJoin_singleton (sep : Char) (a : String) : pyJoin sep [a] = a := by
  unfold pyJoin
  simp only [List.map, joinWithChar]
  cases a
  rfl

/- =========================  Claim theorems  ========================= -/

/-- C1: evaluation of the staged-create endpoint at the failing input.  On a
fresh catalog holding only namespace `["ns"]`, a `CreateTable` with
`stageCreate = true` on the absent identifier `ns.t` answers with a NON-null
metadata location (the one assigned by the full create that the handler
performs before dropping the table again), contradicting the claim that the
result carries a null metadata location; the table is indeed absent from
`ListTables` and `LoadTable` afterwards. -/
theorem c1_staged_create_returns_nonnull_location :
    let s0 : State := { namespaces := [(["ns"], [])], tables := [], nextLoc := 0 }
    let req : CreateTableRequest :=
      { name := "t", stageCreate := true, schemaId := 5, properties := [("k", "v")] }
    lookupTbl s0.tables (["ns"], "t") = none
    ∧ (create_table "ns" req s0).1
        = .ok { metadataLocation := some 0
                metadata := initMetadata req
                config := [("k", "v")] }
    ∧ (load_table "ns" "t" (create_table "ns" req s0).2).1 = .error .notFoundTable
    ∧ (list_tables "ns" (create_table "ns" req s0).2).1 = .ok [] := by
  refine ⟨rfl, rfl, rfl, rfl⟩

/-- C2: evaluation of the transaction endpoint at the failing input.  The
source's `commit_transaction` body is a bare `...` stub: on a state holding
tables `ns.t1` and `ns.t2`, with a two-table transaction whose first
per-table commit is valid and whose second carries a failing requirement,
the endpoint answers HTTP success with the state untouched instead of
failing the batch with `CommitFailed` — and even an all-valid transaction
would publish nothing. -/
theorem c2_commit_transaction_is_a_stub :
    let m1 : TableMetadata :=
      { schemaIds := [1], currentSchemaId := some 1, snapshotIds := [],
        currentSnapshotId := none, properties := [], lastSequenceNumber := 0,
        version := 1 }
    let m2 : TableMetadata :=
      { schemaIds := [2], currentSchemaId := some 2, snapshotIds := [7],
        currentSnapshotId := some 7, properties := [], lastSequenceNumber := 1,
        version := 1 }
    let s : State :=
      { namespaces := [(["ns"], [])],
        tables := [((["ns"], "t1"), (0, m1)), ((["ns"], "t2"), (1, m2))],
        nextLoc := 2 }
    let req1 : CommitTableRequest :=
      { identifier := some ⟨["ns"], "t1"⟩,
        requirements := [.assertCurrentSnapshotId none],
        updates := [.addSnapshot 9] }
    let req2 : CommitTableRequest :=
      { identifier := some ⟨["ns"], "t2"⟩,
        requirements := [.assertCurrentSnapshotId (some 5)],
        updates := [.addSnapshot 9] }
    firstFailedReq true m1 req1.requirements = none
    ∧ firstFailedReq true m2 req2.requirements
        = some (.assertCurrentSnapshotId (some 5))
    ∧ commit_transaction { tableChanges := [req1, req2] } s = (.ok (), s) := by
  exact ⟨by decide, by decide, rfl⟩

/-- C4 counterexample: the rename endpoint does not use the `0x1F` separator
byte: its namespace formatting is a dot join, which differs from the `0x1F`
format already on `["a", "b"]`, and parsing it back does not return the
original parts. -/
theorem c4_rename_separator_counterexample :
    dotJoin ["a", "b"] ≠ nsFormat ["a", "b"]
    ∧ parseNs (dotJoin ["a", "b"]) ≠ ["a", "b"] := by
  exact ⟨by decide, by decide⟩

/-- C4 (amended): for every non-empty part sequence whose parts are free of
the reserved `0x1F` byte (dots allowed), parsing the formatted namespace
path yields back exactly the original parts. -/
theorem c4_parse_format_roundtrip (parts : List String) (hne : parts ≠ [])
    (hsep : ∀ p ∈ parts, usChar ∉ p.toList) :
    parseNs (nsFormat parts) = parts :=
  pySplit_pyJoin usChar parts hne hsep

/-- C4 witness: the round trip at the concrete parts `["a", "b.c"]`, whose
second part contains a dot. -/
theorem c4_parse_format_roundtrip_witness :
    parseNs (nsFormat ["a", "b.c"]) = ["a", "b.c"] :=
  c4_parse_format_roundtrip ["a", "b.c"] (by decide) (by decide)

/-- C7: evaluation of `list_namespaces` at the failing input.  On the state
built by creating `["a"]`, `["a", "b"]`, `["c"]`: an absent parent parameter
lists the top-level namespaces and parent `"a"` lists `[["a", "b"]]`, as the
claim says, but a PROVIDED empty parent string is split into the one-empty-
part tuple `[""]` and answered with 404 `NoSuchNamespace` instead of the
top-level listing the claim (and the endpoint's own parameter description)
requires. -/
theorem c7_list_namespaces_empty_parent_404 :
    let s : State :=
      (create_namespace ⟨["c"], []⟩
        ((create_namespace ⟨["a", "b"], []⟩
          ((create_namespace ⟨["a"], []⟩ State.empty).2)).2)).2
    pySplit "" usChar = [""]
    ∧ (list_namespaces (some "") s).1 = .error .notFoundNamespace
    ∧ ApiErr.status .notFoundNamespace = 404
    ∧ (list_namespaces none s).1 = .ok [["c"], ["a"]]
    ∧ (list_namespaces (some "a") s).1 = .ok [["a", "b"]] := by
  refine ⟨rfl, rfl, rfl, rfl, rfl⟩

/-- C8: `GET /reset` replaces the catalog state with the freshly recreated
empty store no matter what state the prior operations had produced, the
process-start wipe produces the same empty store, and on that store every
`LoadTable` fails with 404 `NoSuchTable` and every
`LoadNamespaceProperties` fails with 404 `NoSuchNamespace`. -/
theorem c8_reset_wipes_catalog (s prior : State) (nsPath table : String) :
    reset s = (.ok (), State.empty)
    ∧ startupState prior = State.empty
    ∧ (load_table nsPath table State.empty).1 = .error .notFoundTable
    ∧ (load_namespace_metadata nsPath State.empty).1 = .error .notFoundNamespace
    ∧ ApiErr.status .notFoundTable = 404
    ∧ ApiErr.status .notFoundNamespace = 404 := by
  refine ⟨rfl, rfl, rfl, rfl, rfl, rfl⟩

/-- C8 witness: the reset behavior at a concrete non-empty state and path. -/
theorem c8_reset_wipes_catalog_witness :
    reset { namespaces := [(["a"], [])], tables := [], nextLoc := 3 }
        = (.ok (), State.empty)
    ∧ (load_table "a" "t" State.empty).1 = .error .notFoundTable :=
  ⟨(c8_reset_wipes_catalog { namespaces := [(["a"], [])], tables := [], nextLoc := 3 }
      State.empty "a" "t").1,
   (c8_reset_wipes_catalog State.empty State.empty "a" "t").2.2.1⟩

/-- C3 counterexample: a state where the destination namespace `["a", "b"]`
exists, the source table `["a", "b"].t1` exists and the destination
identifier `["a", "b"].t2` is free, yet the rename call fails with 404
`NoSuchNamespace` instead of succeeding: the endpoint dot-joins the
namespace parts, so the catalog is asked about the single-part namespace
`["a.b"]`, which does not exist. -/
theorem c3_rename_multipart_counterexample :
    let s : State :=
      { namespaces := [(["a", "b"], [])],
        tables := [((["a", "b"], "t1"), (0, emptyMetadata))],
        nextLoc := 1 }
    let req : RenameTableRequest :=
      { source := ⟨["a", "b"], "t1"⟩, destination := ⟨["a", "b"], "t2"⟩ }
    lookupNs s.namespaces ["a", "b"] = some []
    ∧ lookupTbl s.tables (["a", "b"], "t1") = some (0, emptyMetadata)
    ∧ lookupTbl s.tables (["a", "b"], "t2") = none
    ∧ rename_table req s = (.error .notFoundNamespace, s) := by
  exact ⟨rfl, rfl, rfl, rfl⟩

/-- C3 (amended): for calls whose source and destination namespaces are
single-part, the rename endpoint behaves exactly as the claim describes —
404 `NoSuchNamespace` when the destination namespace is absent, 404
`NoSuchTable` when the source table is absent, 409 `TableAlreadyExists` when
the destination identifier is occupied, each leaving the state untouched;
on success the destination is bound to the metadata previously bound at the
source and the source binding is removed. -/
theorem c3_rename_single_part_namespaces (a na b nb : String) (s : State) :
    rename_table { source := ⟨[a], na⟩, destination := ⟨[b], nb⟩ } s
      = renameExpected [a] na [b] nb s := by
  have ha : dotJoin [a] = a := pyJoin_singleton '.' a
  have hb : dotJoin [b] = b := pyJoin_singleton '.' b
  unfold rename_table renameExpected Catalog.renameTable
  rw [ha, hb]
  by_cases h1 : lookupNs s.namespaces [b] = none
  · simp [h1]
  · simp only [h1, if_false]
    cases h2 : lookupTbl s.tables ([a], na) with
    | none => simp
    | some entry =>
      by_cases h3 : (lookupTbl s.tables ([b], nb)).isSome
      · simp [h3]
      · simp [h3]

/-- C5: commit conflict reporting.  For a commit routed at an existing table:
if the in-order validation of the requirement list has a first failing
requirement, the endpoint answers 409 `CommitFailed` carrying that
requirement and leaves the state untouched; a commit at an absent identifier
without an assert-create requirement answers 404 `NoSuchTable`; a commit
whose requirement list is exactly an assert-current-snapshot-id of `x` fails
with 409 `CommitFailed` whenever the table's current snapshot id differs
from `x` — e.g. because a concurrent commit changed it since the caller's
load — whatever the updates are; and the two error reports are distinct,
with distinct status codes. -/
theorem c5_commit_conflict_reporting (s : State) (i : Ident) (loc : Loc)
    (m : TableMetadata) (reqs : List TableRequirement) (upds : List TableUpdate)
    (nsPath table : String) (r : TableRequirement) (x : Option Nat) :
    (lookupTbl s.tables i = some (loc, m) →
      firstFailedReq true m reqs = some r →
      update_table nsPath table ⟨some ⟨i.1, i.2⟩, reqs, upds⟩ s
        = (.error (.conflictCommitFailed (some r)), s))
    ∧ (lookupTbl s.tables i = none →
      reqs.contains TableRequirement.assertCreate = false →
      update_table nsPath table ⟨some ⟨i.1, i.2⟩, reqs, upds⟩ s
        = (.error .notFoundTable, s))
    ∧ (lookupTbl s.tables i = some (loc, m) → m.currentSnapshotId ≠ x →
      update_table nsPath table ⟨some ⟨i.1, i.2⟩, [.assertCurrentSnapshotId x], upds⟩ s
        = (.error (.conflictCommitFailed (some (.assertCurrentSnapshotId x))), s))
    ∧ ApiErr.status (.conflictCommitFailed (some r)) = 409
    ∧ ApiErr.status .notFoundTable = 404
    ∧ ApiErr.conflictCommitFailed (some r) ≠ ApiErr.notFoundTable := by
  obtain ⟨ins, iname⟩ := i
  refine ⟨?_, ?_, ?_, rfl, rfl, by simp⟩
  · intro h1 h2
    simp [update_table, commitCore, Catalog.commitTable, h1, h2]
  · intro h1 h2
    simp [update_table, commitCore, Catalog.commitTable, h1, h2]
  · intro h1 hx
    have hfail : firstFailedReq true m [.assertCurrentSnapshotId x]
        = some (.assertCurrentSnapshotId x) := by
      simp [firstFailedReq, checkReq, hx]
    simp [update_table, commitCore, Catalog.commitTable, h1, hfail]

/-- C5 witness: a table whose current snapshot id is 7 rejects a commit
asserting snapshot id 5 with 409 `CommitFailed`, leaving the state as it
was. -/
theorem c5_commit_conflict_reporting_witness :
    update_table "x" "y"
      { identifier := some ⟨["ns"], "t"⟩,
        requirements := [.assertCurrentSnapshotId (some 5)],
        updates := [.addSnapshot 9] }
      { namespaces := [(["ns"], [])],
        tables := [((["ns"], "t"),
          (0, { schemaIds := [1], currentSchemaId := some 1, snapshotIds := [7],
                currentSnapshotId := some 7, properties := [],
                lastSequenceNumber := 1, version := 2 }))],
        nextLoc := 1 }
      = (.error (.conflictCommitFailed (some (.assertCurrentSnapshotId (some 5)))),
        { namespaces := [(["ns"], [])],
          tables := [((["ns"], "t"),
            (0, { schemaIds := [1], currentSchemaId := some 1, snapshotIds := [7],
                  currentSnapshotId := some 7, properties := [],
                  lastSequenceNumber := 1, version := 2 }))],
          nextLoc := 1 }) :=
  (c5_commit_conflict_reporting
    { namespaces := [(["ns"], [])],
      tables := [((["ns"], "t"),
        (0, { schemaIds := [1], currentSchemaId := some 1, snapshotIds := [7],
              currentSnapshotId := some 7, properties := [],
              lastSequenceNumber := 1, version := 2 }))],
      nextLoc := 1 }
    (["ns"], "t") 0
    { schemaIds := [1], currentSchemaId := some 1, snapshotIds := [7],
      currentSnapshotId := some 7, properties := [],
      lastSequenceNumber := 1, version := 2 }
    [.assertCurrentSnapshotId (some 5)] [.addSnapshot 9] "x" "y"
    .assertCreate (some 5)).2.2.1 rfl (by decide)

/-- C6: creating a namespace and immediately loading its properties through
the endpoints returns exactly the supplied properties, and creating the same
namespace a second time (with any property map) fails with 409
`NamespaceAlreadyExists` and leaves the state — in particular the stored
properties — unchanged. -/
theorem c6_create_namespace_then_load (parts : List String) (props props2 : Props)
    (s : State) (h1 : lookupNs s.namespaces parts = none) (h2 : parts ≠ [])
    (h3 : ∀ p ∈ parts, usChar ∉ p.toList) :
    (create_namespace ⟨parts, props⟩ s).1 = .ok ⟨parts, props⟩
    ∧ (load_namespace_metadata (nsFormat parts)
        (create_namespace ⟨parts, props⟩ s).2).1 = .ok ⟨parts, props⟩
    ∧ create_namespace ⟨parts, props2⟩ (create_namespace ⟨parts, props⟩ s).2
        = (.error .conflictNamespaceExists, (create_namespace ⟨parts, props⟩ s).2)
    ∧ ApiErr.status .conflictNamespaceExists = 409 := by
  have hs : create_namespace ⟨parts, props⟩ s
      = (.ok ⟨parts, props⟩, { s with namespaces := (parts, props) :: s.namespaces }) := by
    simp [create_namespace, Catalog.createNamespace, h1]
  have hrt : pySplit (nsFormat parts) usChar = parts :=
    pySplit_pyJoin usChar parts h2 h3
  refine ⟨by rw [hs], ?_, ?_, rfl⟩
  · rw [hs]
    simp [load_namespace_metadata, Catalog.loadNamespaceProperties, hrt, lookupNs]
  · rw [hs]
    simp [create_namespace, Catalog.createNamespace, lookupNs]

/-- C6 witness: the round trip at namespace `["db"]` with properties
`[("owner", "me")]` starting from the empty catalog. -/
theorem c6_create_namespace_then_load_witness :
    (create_namespace ⟨["db"], [("owner", "me")]⟩ State.empty).1
        = .ok ⟨["db"], [("owner", "me")]⟩
    ∧ (load_namespace_metadata (nsFormat ["db"])
        (create_namespace ⟨["db"], [("owner", "me")]⟩ State.empty).2).1
        = .ok ⟨["db"], [("owner", "me")]⟩
    ∧ create_namespace ⟨["db"], [("x", "y")]⟩
        (create_namespace ⟨["db"], [("owner", "me")]⟩ State.empty).2
        = (.error .conflictNamespaceExists,
          (create_namespace ⟨["db"], [("owner", "me")]⟩ State.empty).2)
    ∧ ApiErr.status .conflictNamespaceExists = 409 :=
  c6_create_namespace_then_load ["db"] [("owner", "me")] [("x", "y")]
    State.empty rfl (by decide) (by decide)

/-- C9: commit routing.  When the commit request body carries an identifier,
the commit is applied at that identifier and the path parameters have no
influence on the outcome; when the body identifier is null, the identifier
is formed from the split namespace path and the table path parameter. -/
theorem c9_update_table_body_identifier_routing
    (nsPath table nsPath' table' : String) (i : TableIdentifier)
    (reqs : List TableRequirement) (upds : List TableUpdate) (s : State) :
    update_table nsPath table ⟨some i, reqs, upds⟩ s
        = commitCore (i.namespace', i.name) reqs upds s
    ∧ update_table nsPath table ⟨some i, reqs, upds⟩ s
        = update_table nsPath' table' ⟨some i, reqs, upds⟩ s
    ∧ update_table nsPath table ⟨none, reqs, upds⟩ s
        = commitCore (pySplit nsPath usChar, table) reqs upds s :=
  ⟨rfl, rfl, rfl⟩

/-- C10: the existence checks answer exactly as the corresponding loads.
`HEAD` on a namespace is the namespace-properties load with the body
discarded — same success, same error (404 `NoSuchNamespace`) — and `HEAD`
on a table is the table load with the body discarded — same success, same
error (404 `NoSuchTable`) — and none of the four endpoints changes the
catalog state. -/
theorem c10_exists_endpoints_match_load (nsPath table : String) (s : State) :
    namespace_exists nsPath s
        = (Except.map (fun _ => ()) (load_namespace_metadata nsPath s).1, s)
    ∧ table_exists nsPath table s
        = (Except.map (fun _ => ()) (load_table nsPath table s).1, s)
    ∧ (namespace_exists nsPath s).2 = s
    ∧ (load_namespace_metadata nsPath s).2 = s
    ∧ (table_exists nsPath table s).2 = s
    ∧ (load_table nsPath table s).2 = s := by
  refine ⟨?_, ?_, ?_, ?_, ?_, ?_⟩
  · cases h : Catalog.loadNamespaceProperties (pySplit nsPath usChar) s with
    | ok v => simp [namespace_exists, load_namespace_metadata, h, Except.map]
    | error e =>
      cases e <;> simp [namespace_exists, load_namespace_metadata, h, Except.map]
  · cases h : Catalog.loadTable (pySplit nsPath usChar, table) s with
    | ok v => simp [table_exists, load_table, h, Except.map]
    | error e =>
      cases e <;> simp [table_exists, load_table, h, Except.map]
  · cases h : Catalog.loadNamespaceProperties (pySplit nsPath usChar) s with
    | ok v => simp [namespace_exists, h]
    | error e => cases e <;> simp [namespace_exists, h]
  · cases h : Catalog.loadNamespaceProperties (pySplit nsPath usChar) s with
    | ok v => simp [load_namespace_metadata, h]
    | error e => cases e <;> simp [load_namespace_metadata, h]
  · cases h : Catalog.loadTable (pySplit nsPath usChar, table) s with
    | ok v => simp [table_exists, h]
    | error e => cases e <;> simp [table_exists, h]
  · cases h : Catalog.loadTable (pySplit nsPath usChar, table) s with
    | ok v => simp [load_table, h]
    | error e => cases e <;> simp [load_table, h]
